import Mathlib

set_option autoImplicit false
set_option linter.unusedVariables false

/-! Verification of the per-domain proxy assignment and session-routing
subsystem of flaresolverr.py (function controller_v1 and its module level
globals PROXY_POOL and DOMAIN_PROXIES).

Modelling conventions: Python strings are lists of characters; the dict
DOMAIN_PROXIES is an association list; the random module is abstracted by
explicit oracles (a stream of naturals driving random.sample and one natural
driving random.choice); urlparse is an external library call abstracted by
its outcome (the netloc string, or a parse failure).  Python exceptions
raised by the routing logic are an explicit error result. -/

namespace FlareSolverr

/-- Character strings, modelled as lists of characters. -/
abbrev Str := List Char

/-- Boolean test that pat occurs at the start of a list; building block for
the Python str.replace scan. -/
def matchesAt : Str → Str → Bool
  | [], _ => true
  | _ :: _, [] => false
  | p :: ps, c :: cs => p == c && matchesAt ps cs

/-- Scan for Python s.replace(pat, repl) with a nonempty pattern p :: ps,
driven by a fuel argument so that the recursion is structural (the fuel is
instantiated with the length of the scanned list, which bounds the number of
scan steps). -/
def pyReplaceAux (p : Char) (ps : Str) (repl : Str) : Nat → Str → Str
  | _, [] => []
  | 0, l => l
  | fuel + 1, c :: rest =>
    if matchesAt (p :: ps) (c :: rest)
    then repl ++ pyReplaceAux p ps repl fuel (rest.drop ps.length)
    else c :: pyReplaceAux p ps repl fuel rest

/-- Models Python s.replace(pat, repl) for a nonempty pattern p :: ps: scan
left to right and replace each non-overlapping occurrence of the pattern by
repl. -/
def pyReplace (p : Char) (ps : Str) (repl : Str) (l : Str) : Str :=
  pyReplaceAux p ps repl l.length l

theorem pyReplaceAux_fuel_irrel (p : Char) (ps repl : Str) :
    ∀ (f1 : Nat) (l : Str) (f2 : Nat), l.length ≤ f1 → l.length ≤ f2 →
      pyReplaceAux p ps repl f1 l = pyReplaceAux p ps repl f2 l := by
  intro f1
  induction f1 with
  | zero =>
    intro l f2 h1 _
    cases l with
    | nil => cases f2 <;> rfl
    | cons c rest => simp at h1
  | succ f ih =>
    intro l f2 h1 h2
    cases l with
    | nil => cases f2 <;> rfl
    | cons c rest =>
      cases f2 with
      | zero => simp at h2
      | succ g =>
        simp only [pyReplaceAux]
        by_cases hm : matchesAt (p :: ps) (c :: rest) = true
        · rw [if_pos hm, if_pos hm,
            ih (rest.drop ps.length) g
              (le_trans (List.length_drop _ _ ▸ Nat.sub_le _ _)
                (Nat.le_of_succ_le_succ h1))
              (le_trans (List.length_drop _ _ ▸ Nat.sub_le _ _)
                (Nat.le_of_succ_le_succ h2))]
        · rw [if_neg hm, if_neg hm,
            ih rest g (Nat.le_of_succ_le_succ h1) (Nat.le_of_succ_le_succ h2)]

@[simp] theorem pyReplace_nil (p : Char) (ps repl : Str) :
    pyReplace p ps repl [] = [] := rfl

theorem pyReplace_cons (p : Char) (ps repl : Str) (c : Char) (rest : Str) :
    pyReplace p ps repl (c :: rest)
      = if matchesAt (p :: ps) (c :: rest)
        then repl ++ pyReplace p ps repl (rest.drop ps.length)
        else c :: pyReplace p ps repl rest := by
  show pyReplaceAux p ps repl (rest.length + 1) (c :: rest) = _
  simp only [pyReplaceAux]
  by_cases hm : matchesAt (p :: ps) (c :: rest) = true
  · rw [if_pos hm, if_pos hm,
      pyReplaceAux_fuel_irrel p ps repl rest.length (rest.drop ps.length)
        (rest.drop ps.length).length
        (List.length_drop _ _ ▸ Nat.sub_le _ _) le_rfl]
    rfl
  · rw [if_neg hm, if_neg hm]
    rfl

/-- Boolean test that pat occurs somewhere in the list (Python substring
membership, for nonempty pat). -/
def hasSub (pat : Str) : Str → Bool
  | [] => false
  | c :: rest => matchesAt pat (c :: rest) || hasSub pat rest

/-- Lookup in the association list modelling the Python dict DOMAIN_PROXIES. -/
def dget (k : Str) : List (Str × List Str) → Option (List Str)
  | [] => none
  | (k1, v) :: rest => if k1 = k then some v else dget k rest

/-- Store (overwriting) in the association list modelling DOMAIN_PROXIES. -/
def dset (k : Str) (v : List Str) : List (Str × List Str) → List (Str × List Str)
  | [] => [(k, v)]
  | (k1, v1) :: rest => if k1 = k then (k, v) :: rest else (k1, v1) :: dset k v rest

/-- Models random.sample(pool, k): selection without replacement, driven by an
oracle r of random draws; the i-th draw picks the index r i reduced modulo the
number of remaining elements, removes that element and recurses.  The source
only calls it with k = 10 and a pool of at least 10 elements. -/
def randomSample (r : Nat → Nat) : Nat → List Str → Nat → List Str
  | 0, _, _ => []
  | _ + 1, [], _ => []
  | k + 1, a :: pool, i =>
    (a :: pool).get ⟨r i % (a :: pool).length, Nat.mod_lt _ (Nat.succ_pos _)⟩ ::
      randomSample r k ((a :: pool).eraseIdx (r i % (a :: pool).length)) (i + 1)

/-- Models the expression domain.replace(".", "_") from line 87. -/
def sanitizeDomain (d : Str) : Str := pyReplace '.' [] ['_'] d

/-- Models the expression proxy.replace(".", "_").replace("http://", "") from
line 87. -/
def sanitizeProxy (p : Str) : Str :=
  pyReplace 'h' "ttp://".data [] (pyReplace '.' [] ['_'] p)

/-- Models the f-string of line 87 deriving the session identifier from the
domain and the chosen proxy. -/
def session_id (domain proxy : Str) : Str :=
  "flaresolverr-".data ++ sanitizeDomain domain ++ ['-'] ++ sanitizeProxy proxy

/-- The JSON request payload, as a finite map from field names to values. -/
abbrev Payload := Str → Option Str

/-- Models a Python dict item assignment payload[k] = v. -/
def pupdate (p : Payload) (k : Str) (v : Str) : Payload :=
  fun k1 => if k1 = k then some v else p k1

/-- An inbound HTTP request: its URL, the outcome of
urlparse(request.url).netloc (some netloc on success, none when urlparse
raises), and its JSON body (request.json or the empty object). -/
structure Request where
  url : Str
  parsed : Option Str
  payload : Payload

/-- Modelled from the spec: V1RequestBase (file dtos.py is not under src);
per section 6 the request object handed to the Automation Dispatcher carries
the rewritten url plus every caller supplied payload field verbatim. -/
structure Dispatch where
  fields : Payload
  url : Str

/-- The module level globals read and written by controller_v1. -/
structure ControllerState where
  PROXY_POOL : List Str
  DOMAIN_PROXIES : List (Str × List Str)

/-- Python exceptions the routing logic of controller_v1 can raise. -/
inductive PyError
  | nameError
  | attributeError
deriving DecidableEq

/-- Models the per-domain proxy assignment block, lines 79 to 83: when the
domain has no entry yet, store a random sample of 10 when the pool holds at
least 10 proxies, and a copy of the whole pool otherwise. -/
def assignProxies (st : ControllerState) (domain : Str) (r : Nat → Nat) :
    List (Str × List Str) :=
  if (dget domain st.DOMAIN_PROXIES).isNone then
    if 10 ≤ st.PROXY_POOL.length then
      dset domain (randomSample r 10 st.PROXY_POOL 0) st.DOMAIN_PROXIES
    else
      dset domain st.PROXY_POOL st.DOMAIN_PROXIES
  else st.DOMAIN_PROXIES

/-- Models controller_v1 (lines 62 to 96) up to the dispatcher call: returns
the post state of the globals together with either the dispatched request or
the Python exception the routing logic raises.  Line by line: payload from
request.json (68); urlparse (71) abstracted by req.parsed, and on parse
failure the warning f-string of line 73 references the undefined name url, so
the handler itself raises NameError; dead default session value (75); the
payload session field set to the raw domain (76); per-domain assignment
(79 to 83); random proxy choice, none when the assignment is empty (85); the
session identifier derivation of line 87 calls proxy.replace, which raises
AttributeError when proxy is None; payload session and proxy fields
(88 to 89); V1RequestBase built from the payload with its url attribute
rewritten by request.url.replace("http", "https") (94 to 96). -/
def controller_v1 (st : ControllerState) (req : Request) (r : Nat → Nat)
    (c : Nat) : ControllerState × Except PyError Dispatch :=
  let payload := req.payload
  match req.parsed with
  | none => (st, Except.error PyError.nameError)
  | some domain =>
    let session_id0 : Option Str :=
      if domain ≠ [] then some "flaresolverr-default-session".data else none
    let payload := pupdate payload "session".data domain
    let cache := assignProxies st domain r
    let st1 : ControllerState := { st with DOMAIN_PROXIES := cache }
    match (dget domain cache).getD [] with
    | [] => (st1, Except.error PyError.attributeError)
    | a :: rest =>
      let proxy := (a :: rest).get
        ⟨c % (a :: rest).length, Nat.mod_lt _ (Nat.succ_pos _)⟩
      let sid := session_id domain proxy
      let payload := pupdate payload "session".data sid
      let payload := pupdate payload "proxy".data proxy
      (st1, Except.ok
        { fields := payload
          url := pyReplace 'h' "ttp".data "https".data req.url })

/-- Variant of controller_v1 with the dead pre-assignment session computation
removed: line 75 (the default session value) and line 76 (payload session
field set to the raw domain) are deleted; everything else is identical. -/
def controller_v1_dce (st : ControllerState) (req : Request) (r : Nat → Nat)
    (c : Nat) : ControllerState × Except PyError Dispatch :=
  let payload := req.payload
  match req.parsed with
  | none => (st, Except.error PyError.nameError)
  | some domain =>
    let cache := assignProxies st domain r
    let st1 : ControllerState := { st with DOMAIN_PROXIES := cache }
    match (dget domain cache).getD [] with
    | [] => (st1, Except.error PyError.attributeError)
    | a :: rest =>
      let proxy := (a :: rest).get
        ⟨c % (a :: rest).length, Nat.mod_lt _ (Nat.succ_pos _)⟩
      let sid := session_id domain proxy
      let payload := pupdate payload "session".data sid
      let payload := pupdate payload "proxy".data proxy
      (st1, Except.ok
        { fields := payload
          url := pyReplace 'h' "ttp".data "https".data req.url })

/-! Basic lemmas about the dictionary, payload, sampling and string
operations used by controller_v1. -/

theorem dget_dset_self (k : Str) (v : List Str)
    (cache : List (Str × List Str)) : dget k (dset k v cache) = some v := by
  induction cache with
  | nil => simp [dget, dset]
  | cons kv rest ih =>
    obtain ⟨k1, v1⟩ := kv
    by_cases h : k1 = k
    · simp [dget, dset, h]
    · simp [dget, dset, h, ih]

theorem dget_dset_ne (k k2 : Str) (v : List Str)
    (cache : List (Str × List Str)) (hne : k2 ≠ k) :
    dget k2 (dset k v cache) = dget k2 cache := by
  induction cache with
  | nil =>
    have h0 : ¬ k = k2 := fun h => hne h.symm
    simp [dget, dset, h0]
  | cons kv rest ih =>
    obtain ⟨k1, v1⟩ := kv
    by_cases h : k1 = k
    · subst h
      have h0 : ¬ k1 = k2 := fun h => hne h.symm
      simp [dget, dset, h0]
    · simp [dget, dset, h, ih]

theorem randomSample_length (r : Nat → Nat) :
    ∀ (k : Nat) (pool : List Str) (i : Nat),
      (randomSample r k pool i).length = min k pool.length := by
  intro k
  induction k with
  | zero => intro pool i; simp [randomSample]
  | succ k ih =>
    intro pool i
    cases pool with
    | nil => simp [randomSample]
    | cons a rest =>
      have hj : r i % (rest.length + 1) < rest.length + 1 :=
        Nat.mod_lt _ (Nat.succ_pos _)
      simp only [randomSample, List.length_cons, ih, List.length_eraseIdx]
      rw [if_pos hj]
      omega

theorem randomSample_subset (r : Nat → Nat) :
    ∀ (k : Nat) (pool : List Str) (i : Nat) (x : Str),
      x ∈ randomSample r k pool i → x ∈ pool := by
  intro k
  induction k with
  | zero => intro pool i x hx; simp [randomSample] at hx
  | succ k ih =>
    intro pool i x hx
    cases pool with
    | nil => simp [randomSample] at hx
    | cons a rest =>
      simp only [randomSample, List.mem_cons] at hx
      rcases hx with hx | hx
      · rw [hx]; exact List.get_mem _ _ _
      · exact (List.eraseIdx_sublist _ _).subset (ih _ _ _ hx)

theorem get_not_mem_eraseIdx :
    ∀ (l : List Str) (j : Nat) (hj : j < l.length), l.Nodup →
      l.get ⟨j, hj⟩ ∉ l.eraseIdx j := by
  intro l
  induction l with
  | nil => intro j hj; simp at hj
  | cons a rest ih =>
    intro j hj hnd
    cases j with
    | zero =>
      simp only [List.get, List.eraseIdx]
      exact (List.nodup_cons.mp hnd).1
    | succ j =>
      simp only [List.get, List.eraseIdx]
      intro hmem
      rcases List.mem_cons.mp hmem with h | h
      · exact (List.nodup_cons.mp hnd).1 (h ▸ List.get_mem _ _ _)
      · exact ih j (Nat.lt_of_succ_lt_succ hj) (List.nodup_cons.mp hnd).2 h

theorem randomSample_nodup (r : Nat → Nat) :
    ∀ (k : Nat) (pool : List Str) (i : Nat), pool.Nodup →
      (randomSample r k pool i).Nodup := by
  intro k
  induction k with
  | zero => intro pool i _; simp [randomSample]
  | succ k ih =>
    intro pool i hnd
    cases pool with
    | nil => simp [randomSample]
    | cons a rest =>
      simp only [randomSample, List.nodup_cons]
      refine ⟨fun hmem => ?_, ih _ _ ((List.eraseIdx_sublist _ _).nodup hnd)⟩
      exact get_not_mem_eraseIdx _ _ _ hnd (randomSample_subset r k _ _ _ hmem)

theorem pupdate_pupdate_same (p : Payload) (k : Str) (v1 v2 : Str) :
    pupdate (pupdate p k v1) k v2 = pupdate p k v2 := by
  funext k1
  by_cases h : k1 = k <;> simp [pupdate, h]

theorem pupdate_ne (p : Payload) (k k1 : Str) (v : Str) (h : k1 ≠ k) :
    pupdate p k v k1 = p k1 := by
  simp [pupdate, h]

theorem pyReplaceAux_single_eq_map (c r : Char) :
    ∀ (fuel : Nat) (l : Str), l.length ≤ fuel →
      pyReplaceAux c [] [r] fuel l = l.map fun x => if x = c then r else x := by
  intro fuel
  induction fuel with
  | zero =>
    intro l h
    cases l with
    | nil => rfl
    | cons x rest => simp at h
  | succ f ih =>
    intro l h
    cases l with
    | nil => rfl
    | cons x rest =>
      by_cases hx : x = c
      · simp [pyReplaceAux, matchesAt, hx,
          ih rest (Nat.le_of_succ_le_succ (by simpa using h))]
      · have hcx : ¬ c = x := fun hc => hx hc.symm
        simp [pyReplaceAux, matchesAt, hcx, hx,
          ih rest (Nat.le_of_succ_le_succ (by simpa using h))]

theorem pyReplace_single_eq_map (c r : Char) (l : Str) :
    pyReplace c [] [r] l = l.map fun x => if x = c then r else x :=
  pyReplaceAux_single_eq_map c r l.length l le_rfl

theorem pyReplaceAux_of_not_hasSub (p : Char) (ps repl : Str) :
    ∀ (fuel : Nat) (l : Str), l.length ≤ fuel → hasSub (p :: ps) l = false →
      pyReplaceAux p ps repl fuel l = l := by
  intro fuel
  induction fuel with
  | zero =>
    intro l h1 _
    cases l with
    | nil => rfl
    | cons c rest => simp at h1
  | succ f ih =>
    intro l h1 h2
    cases l with
    | nil => rfl
    | cons c rest =>
      simp only [hasSub, Bool.or_eq_false_iff] at h2
      simp only [pyReplaceAux]
      rw [if_neg (by simp [h2.1]),
        ih rest (Nat.le_of_succ_le_succ (by simpa using h1)) h2.2]

theorem pyReplace_of_not_hasSub (p : Char) (ps repl : Str) (l : Str)
    (h : hasSub (p :: ps) l = false) : pyReplace p ps repl l = l :=
  pyReplaceAux_of_not_hasSub p ps repl l.length l le_rfl h

theorem pyReplace_http_clean (rest : Str)
    (h : hasSub "http".data rest = false) :
    pyReplace 'h' "ttp".data "https".data ("http://".data ++ rest)
      = "https://".data ++ rest := by
  show pyReplace 'h' "ttp".data "https".data
      ('h' :: 't' :: 't' :: 'p' :: ':' :: '/' :: '/' :: rest)
    = 'h' :: 't' :: 't' :: 'p' :: 's' :: ':' :: '/' :: '/' :: rest
  rw [pyReplace_cons, if_pos (by rfl)]
  show "https".data ++
      pyReplace 'h' "ttp".data "https".data (':' :: '/' :: '/' :: rest) = _
  rw [pyReplace_cons, if_neg (fun hc => Bool.noConfusion hc)]
  rw [pyReplace_cons, if_neg (fun hc => Bool.noConfusion hc)]
  rw [pyReplace_cons, if_neg (fun hc => Bool.noConfusion hc)]
  rw [pyReplace_of_not_hasSub 'h' "ttp".data "https".data rest h]
  rfl

theorem map_dot_underscore_inj :
    ∀ (d1 d2 : Str), '_' ∉ d1 → '_' ∉ d2 →
      d1.map (fun x => if x = '.' then '_' else x)
        = d2.map (fun x => if x = '.' then '_' else x) → d1 = d2 := by
  intro d1
  induction d1 with
  | nil =>
    intro d2 _ _ heq
    cases d2 with
    | nil => rfl
    | cons b bs => simp at heq
  | cons a as ih =>
    intro d2 h1 h2 heq
    cases d2 with
    | nil => simp at heq
    | cons b bs =>
      simp only [List.map_cons, List.cons.injEq] at heq
      have ha : a ≠ '_' := fun hc => h1 (by simp [hc])
      have hb : b ≠ '_' := fun hc => h2 (by simp [hc])
      have hab : a = b := by
        by_cases hA : a = '.' <;> by_cases hB : b = '.'
        · rw [hA, hB]
        · rw [if_pos hA, if_neg hB] at heq
          exact absurd heq.1.symm hb
        · rw [if_neg hA, if_pos hB] at heq
          exact absurd heq.1 ha
        · rw [if_neg hA, if_neg hB] at heq
          exact heq.1
      rw [hab, ih bs (fun hc => h1 (List.mem_cons_of_mem _ hc))
        (fun hc => h2 (List.mem_cons_of_mem _ hc)) heq.2]

theorem sanitizeDomain_inj (d1 d2 : Str) (h1 : '_' ∉ d1) (h2 : '_' ∉ d2)
    (heq : sanitizeDomain d1 = sanitizeDomain d2) : d1 = d2 := by
  simp only [sanitizeDomain, pyReplace_single_eq_map] at heq
  exact map_dot_underscore_inj d1 d2 h1 h2 heq

theorem matchesAt_append_self (p t : Str) : matchesAt p (p ++ t) = true := by
  induction p with
  | nil => rfl
  | cons c cs ih => simp [matchesAt, ih]

/-! Behavior of the assignment block and of the controller state. -/

theorem assignProxies_preserves (st : ControllerState) (domain : Str)
    (r : Nat → Nat) (d : Str) (v : List Str)
    (h : dget d st.DOMAIN_PROXIES = some v) :
    dget d (assignProxies st domain r) = some v := by
  unfold assignProxies
  by_cases hd : (dget domain st.DOMAIN_PROXIES).isNone = true
  · have hne : d ≠ domain := by
      intro he
      subst he
      rw [h] at hd
      simp at hd
    rw [if_pos hd]
    by_cases hlen : 10 ≤ st.PROXY_POOL.length
    · rw [if_pos hlen, dget_dset_ne _ _ _ _ hne, h]
    · rw [if_neg hlen, dget_dset_ne _ _ _ _ hne, h]
  · rw [if_neg hd]
    exact h

theorem assignProxies_of_mem (st : ControllerState) (domain : Str)
    (r : Nat → Nat) (v : List Str)
    (h : dget domain st.DOMAIN_PROXIES = some v) :
    assignProxies st domain r = st.DOMAIN_PROXIES := by
  unfold assignProxies
  rw [h]
  rfl

theorem assignProxies_of_new (st : ControllerState) (domain : Str)
    (r : Nat → Nat) (h : dget domain st.DOMAIN_PROXIES = none) :
    assignProxies st domain r
      = if 10 ≤ st.PROXY_POOL.length
        then dset domain (randomSample r 10 st.PROXY_POOL 0) st.DOMAIN_PROXIES
        else dset domain st.PROXY_POOL st.DOMAIN_PROXIES := by
  unfold assignProxies
  rw [h]
  rfl

theorem controller_v1_state_none (st : ControllerState) (req : Request)
    (r : Nat → Nat) (c : Nat) (h : req.parsed = none) :
    (controller_v1 st req r c).1 = st := by
  simp only [controller_v1, h]

theorem controller_v1_state_some (st : ControllerState) (req : Request)
    (r : Nat → Nat) (c : Nat) (domain : Str) (h : req.parsed = some domain) :
    (controller_v1 st req r c).1
      = { st with DOMAIN_PROXIES := assignProxies st domain r } := by
  simp only [controller_v1, h]
  cases (dget domain (assignProxies st domain r)).getD [] with
  | nil => rfl
  | cons a rest => rfl

theorem controller_preserves (st : ControllerState) (req : Request)
    (r : Nat → Nat) (c : Nat) (d : Str) (v : List Str)
    (h : dget d st.DOMAIN_PROXIES = some v) :
    dget d (controller_v1 st req r c).1.DOMAIN_PROXIES = some v := by
  cases hp : req.parsed with
  | none =>
    rw [controller_v1_state_none st req r c hp]
    exact h
  | some domain =>
    rw [controller_v1_state_some st req r c domain hp]
    exact assignProxies_preserves st domain r d v h

/-! The claims. -/

/-- Claim C1: for a domain with no existing assignment, the creation step of
lines 79 to 83 stores a sample of exactly 10 distinct endpoints drawn without
replacement from the pool when the pool has at least 10 entries (length
min 10 pool, no duplicates, every member from the pool), and the entire pool
otherwise; the stored assignment is a subset of the pool of size
min 10 (pool size). -/
theorem assignment_creation (st : ControllerState) (domain : Str)
    (r : Nat → Nat) (hnew : dget domain st.DOMAIN_PROXIES = none)
    (hnd : st.PROXY_POOL.Nodup) :
    ∃ s, dget domain (assignProxies st domain r) = some s ∧
      s.length = min 10 st.PROXY_POOL.length ∧ s.Nodup ∧
      (∀ x ∈ s, x ∈ st.PROXY_POOL) ∧
      (st.PROXY_POOL.length < 10 → s = st.PROXY_POOL) := by
  rw [assignProxies_of_new st domain r hnew]
  by_cases hlen : 10 ≤ st.PROXY_POOL.length
  · rw [if_pos hlen]
    exact ⟨randomSample r 10 st.PROXY_POOL 0, dget_dset_self _ _ _,
      randomSample_length r 10 _ 0, randomSample_nodup r 10 _ 0 hnd,
      fun x hx => randomSample_subset r 10 _ 0 x hx,
      fun hlt => absurd hlen (by omega)⟩
  · rw [if_neg hlen]
    exact ⟨st.PROXY_POOL, dget_dset_self _ _ _, by omega, hnd,
      fun x hx => hx, fun _ => rfl⟩

/-- Witness for the assignment creation theorem: a concrete three element pool
and an unseen domain. -/
theorem assignment_creation_witness :
    ∃ s, dget "example.com".data
        (assignProxies
          ⟨["http://10.0.0.1:8888".data, "http://10.0.1.1:8888".data,
            "http://10.0.2.1:8888".data], []⟩
          "example.com".data (fun _ => 0)) = some s ∧
      s.length = min 10 (["http://10.0.0.1:8888".data,
        "http://10.0.1.1:8888".data, "http://10.0.2.1:8888".data] : List Str).length ∧
      s.Nodup ∧
      (∀ x ∈ s, x ∈ (["http://10.0.0.1:8888".data, "http://10.0.1.1:8888".data,
        "http://10.0.2.1:8888".data] : List Str)) ∧
      ((["http://10.0.0.1:8888".data, "http://10.0.1.1:8888".data,
        "http://10.0.2.1:8888".data] : List Str).length < 10 →
        s = ["http://10.0.0.1:8888".data, "http://10.0.1.1:8888".data,
          "http://10.0.2.1:8888".data]) :=
  assignment_creation
    ⟨["http://10.0.0.1:8888".data, "http://10.0.1.1:8888".data,
      "http://10.0.2.1:8888".data], []⟩
    "example.com".data (fun _ => 0) rfl (by decide)

/-- Claim C2: an existing assignment is never changed by any request: the
entry keeps its exact value through every call of controller_v1, and a
request that targets the already assigned domain leaves the whole cache
untouched, so repeated calls for the same domain observe the identical
subset. -/
theorem assignment_sticky (st : ControllerState) (req : Request)
    (r : Nat → Nat) (c : Nat) (d : Str) (v : List Str)
    (h : dget d st.DOMAIN_PROXIES = some v) :
    dget d (controller_v1 st req r c).1.DOMAIN_PROXIES = some v ∧
      (req.parsed = some d →
        (controller_v1 st req r c).1.DOMAIN_PROXIES = st.DOMAIN_PROXIES) := by
  refine ⟨controller_preserves st req r c d v h, fun hp => ?_⟩
  rw [controller_v1_state_some st req r c d hp]
  show assignProxies st d r = st.DOMAIN_PROXIES
  exact assignProxies_of_mem st d r v h

/-- Witness for the sticky assignment theorem: a second request for an
already assigned domain. -/
theorem assignment_sticky_witness :
    dget "example.com".data
        (controller_v1
          ⟨["http://10.0.0.1:8888".data],
            [("example.com".data, ["http://10.0.0.1:8888".data])]⟩
          ⟨"http://example.com/".data, some "example.com".data, fun _ => none⟩
          (fun _ => 0) 0).1.DOMAIN_PROXIES
      = some ["http://10.0.0.1:8888".data] ∧
      (Request.parsed ⟨"http://example.com/".data, some "example.com".data,
          fun _ => none⟩ = some "example.com".data →
        (controller_v1
          ⟨["http://10.0.0.1:8888".data],
            [("example.com".data, ["http://10.0.0.1:8888".data])]⟩
          ⟨"http://example.com/".data, some "example.com".data, fun _ => none⟩
          (fun _ => 0) 0).1.DOMAIN_PROXIES
          = [("example.com".data, ["http://10.0.0.1:8888".data])]) :=
  assignment_sticky
    ⟨["http://10.0.0.1:8888".data],
      [("example.com".data, ["http://10.0.0.1:8888".data])]⟩
    ⟨"http://example.com/".data, some "example.com".data, fun _ => none⟩
    (fun _ => 0) 0 "example.com".data ["http://10.0.0.1:8888".data] rfl

/-- Claim C3 concerns the empty pool: the claim says routing completes up to
dispatch with no proxy and a domain-only session key; the code instead stores
the empty assignment and then raises AttributeError at the session derivation
of line 87 (replace called on the value None), so the request is never
forwarded.  This theorem evaluates controller_v1 at the failing input. -/
theorem empty_pool_raises :
    controller_v1 ⟨[], []⟩
        ⟨"http://example.com/".data, some "example.com".data, fun _ => none⟩
        (fun _ => 0) 0
      = (⟨[], [("example.com".data, [])]⟩,
          Except.error PyError.attributeError) := by
  rfl

/-- Claim C5 concerns URL parse failure: the claim says a warning is logged
and processing continues with the domain absent; in the code the warning
f-string of line 73 references the undefined name url, so the except handler
itself raises NameError and the request aborts, for every state, URL, payload
and oracle.  This theorem evaluates controller_v1 on the parse failure
path. -/
theorem parse_failure_raises (st : ControllerState) (u : Str) (p : Payload)
    (r : Nat → Nat) (c : Nat) :
    controller_v1 st ⟨u, none, p⟩ r c = (st, Except.error PyError.nameError) :=
  rfl

/-- Claim C9: the pre-assignment session computation (line 75 setting the
default session value and line 76 writing the raw domain into the payload
session field) is dead code: the program with both removed is observationally
equivalent to the original on every state, request and oracle, because the
session field is unconditionally overwritten on line 88 before dispatch and
the error paths are unchanged. -/
theorem dead_code_equiv (st : ControllerState) (req : Request)
    (r : Nat → Nat) (c : Nat) :
    controller_v1 st req r c = controller_v1_dce st req r c := by
  cases hp : req.parsed with
  | none => simp only [controller_v1, controller_v1_dce, hp]
  | some domain =>
    simp only [controller_v1, controller_v1_dce, hp]
    cases (dget domain (assignProxies st domain r)).getD [] with
    | nil => rfl
    | cons a rest => simp only [pupdate_pupdate_same]

/-- Claim C4 is refuted as stated: the sanitization of line 87 is lossy (dots
become underscores), so two domains that differ only in a dot versus an
underscore yield the identical session key for the same proxy. -/
theorem session_id_collision :
    session_id "a.b".data "http://10.0.0.1:8888".data
        = session_id "a_b".data "http://10.0.0.1:8888".data ∧
      "a.b".data ≠ "a_b".data := by
  decide

/-- Claim C4 (amended): the session key is a deterministic pure function of
domain and proxy (identical inputs give identical strings by definition), but
distinct inputs can collide; collision freedom holds on the restricted set of
domains free of underscores: with the proxy fixed, equal keys force equal
domains. -/
theorem session_id_domain_inj (d1 d2 p : Str) (h1 : '_' ∉ d1)
    (h2 : '_' ∉ d2) (heq : session_id d1 p = session_id d2 p) : d1 = d2 := by
  simp only [session_id, List.append_assoc] at heq
  exact sanitizeDomain_inj d1 d2 h1 h2
    (List.append_cancel_right (List.append_cancel_left heq))

/-- Witness for the amended session key theorem at a concrete underscore free
domain and proxy. -/
theorem session_id_domain_inj_witness :
    "example.com".data = "example.com".data :=
  session_id_domain_inj "example.com".data "example.com".data
    "http://10.0.0.1:8888".data (by decide) (by decide) rfl

/-- Modelled from the spec: the claimed URL transformation for claim C6,
replacing only the scheme by https and leaving every other component of the
URL unchanged. -/
def schemeRewrite (u : Str) : Str :=
  if matchesAt "http://".data u
  then "https://".data ++ u.drop "http://".data.length
  else u

/-- Projection of the routing result onto the dispatched URL, none when the
routing raised. -/
def dispatchedUrl (res : ControllerState × Except PyError Dispatch) :
    Option Str :=
  match res.2 with
  | Except.ok dsp => some dsp.url
  | Except.error _ => none

/-- Claim C6 is refuted at a URL whose host itself contains the substring
http: line 96 replaces every occurrence of http in the URL, so the host is
corrupted, which differs from the scheme-only rewrite the claim states. -/
theorem url_rewrite_cex :
    dispatchedUrl
        (controller_v1 ⟨["http://10.0.0.1:8888".data], []⟩
          ⟨"http://httpbin.org/".data, some "httpbin.org".data, fun _ => none⟩
          (fun _ => 0) 0)
      = some "https://httpsbin.org/".data ∧
      schemeRewrite "http://httpbin.org/".data
        = "https://httpbin.org/".data ∧
      some "https://httpsbin.org/".data ≠ some "https://httpbin.org/".data := by
  refine ⟨by decide, by decide, by decide⟩

/-- Claim C6 (amended): the dispatched URL is the request URL with every
occurrence of the substring http replaced by https; when the URL starts with
the scheme http:// and http does not occur in the remainder, this coincides
with the scheme-only rewrite of the specification. -/
theorem url_rewrite_amended (st : ControllerState) (req : Request)
    (r : Nat → Nat) (c : Nat) (rest : Str)
    (hu : req.url = "http://".data ++ rest)
    (hrest : hasSub "http".data rest = false) :
    ((controller_v1 st req r c).2.map fun dsp => dsp.url)
      = ((controller_v1 st req r c).2.map fun _ => schemeRewrite req.url) := by
  have hkey : pyReplace 'h' "ttp".data "https".data req.url
      = schemeRewrite req.url := by
    rw [hu, pyReplace_http_clean rest hrest]
    unfold schemeRewrite
    rw [if_pos (matchesAt_append_self "http://".data rest), List.drop_left]
  cases hp : req.parsed with
  | none =>
    simp only [controller_v1, hp]
    rfl
  | some domain =>
    simp only [controller_v1, hp]
    cases (dget domain (assignProxies st domain r)).getD [] with
    | nil => rfl
    | cons a rest2 => simp only [Except.map, hkey]

/-- Witness for the amended URL rewrite theorem at a clean concrete URL. -/
theorem url_rewrite_amended_witness :
    ((controller_v1 ⟨["http://10.0.0.1:8888".data], []⟩
        ⟨"http://example.com/".data, some "example.com".data, fun _ => none⟩
        (fun _ => 0) 0).2.map fun dsp => dsp.url)
      = ((controller_v1 ⟨["http://10.0.0.1:8888".data], []⟩
        ⟨"http://example.com/".data, some "example.com".data, fun _ => none⟩
        (fun _ => 0) 0).2.map fun _ =>
          schemeRewrite "http://example.com/".data) :=
  url_rewrite_amended
    ⟨["http://10.0.0.1:8888".data], []⟩
    ⟨"http://example.com/".data, some "example.com".data, fun _ => none⟩
    (fun _ => 0) 0 "example.com/".data rfl (by decide)

namespace Race

/-- Program counter of one request thread executing the assignment block of
lines 79 to 85: the membership check, the store of its own sample, and the
read of the stored assignment. -/
inductive Phase
  | start
  | storing
  | reading
  | done
deriving DecidableEq

/-- One request thread: its phase, the sample it would store when it finds
the domain unassigned, and the assignment it reads at line 85. -/
structure Th where
  phase : Phase
  sample : List Str
  seen : Option (List Str)
deriving DecidableEq

/-- One atomic step of a thread against the shared DOMAIN_PROXIES dict.  The
source has no lock, so the membership test of line 79, the store of line 81
or 83 and the read of line 85 are separate atomic actions between which the
hosting server may run another thread. -/
def step (d : Str) (cache : List (Str × List Str)) (t : Th) :
    List (Str × List Str) × Th :=
  match t.phase with
  | Phase.start =>
    if (dget d cache).isNone
    then (cache, { t with phase := Phase.storing })
    else (cache, { t with phase := Phase.reading })
  | Phase.storing =>
    (dset d t.sample cache, { t with phase := Phase.reading })
  | Phase.reading =>
    (cache, { t with phase := Phase.done, seen := dget d cache })
  | Phase.done => (cache, t)

/-- Run two first-time request threads a and b for the same domain under a
schedule: true steps a, false steps b. -/
def run (d : Str) : List Bool → List (Str × List Str) → Th → Th →
    List (Str × List Str) × Th × Th
  | [], cache, a, b => (cache, a, b)
  | true :: s, cache, a, b =>
    run d s (step d cache a).1 (step d cache a).2 b
  | false :: s, cache, a, b =>
    run d s (step d cache b).1 a (step d cache b).2

end Race

/-- Claim C7 is refuted in the interleaving model of the unsynchronized
check-then-insert: both threads pass the membership check of line 79 before
either stores, so both sample and both store; the first caller reads its own
sample, which the second store then overwrites, and the two callers observe
different subsets while the final cache holds only the second sample. -/
theorem race_different_observations :
    (Race.run "example.com".data [true, false, true, true, false, false] []
        ⟨Race.Phase.start, ["http://10.0.0.1:8888".data], none⟩
        ⟨Race.Phase.start, ["http://10.0.1.1:8888".data], none⟩).2.1.seen
        ≠ (Race.run "example.com".data [true, false, true, true, false, false]
        []
        ⟨Race.Phase.start, ["http://10.0.0.1:8888".data], none⟩
        ⟨Race.Phase.start, ["http://10.0.1.1:8888".data], none⟩).2.2.seen ∧
      (Race.run "example.com".data [true, false, true, true, false, false] []
        ⟨Race.Phase.start, ["http://10.0.0.1:8888".data], none⟩
        ⟨Race.Phase.start, ["http://10.0.1.1:8888".data], none⟩).1
        = [("example.com".data, ["http://10.0.1.1:8888".data])] := by
  refine ⟨by decide, by decide⟩

/-- Claim C7 (amended): when two first-time requests for the same unseen
domain do not interleave (each runs all its atomic steps before the other
starts), exactly one store happens and both callers read the identical stored
subset, so the sequential executions of controller_v1 do satisfy the claim;
only interleaved executions can violate it. -/
theorem race_sequential (d : Str) (sA sB : List Str)
    (cache : List (Str × List Str)) (h : dget d cache = none) :
    Race.run d [true, true, true, false, false] cache
        ⟨Race.Phase.start, sA, none⟩ ⟨Race.Phase.start, sB, none⟩
      = (dset d sA cache, ⟨Race.Phase.done, sA, some sA⟩,
          ⟨Race.Phase.done, sB, some sA⟩) := by
  simp [Race.run, Race.step, h, dget_dset_self]

/-- Witness for the sequential schedule theorem at concrete samples. -/
theorem race_sequential_witness :
    Race.run "example.com".data [true, true, true, false, false] []
        ⟨Race.Phase.start, ["http://10.0.0.1:8888".data], none⟩
        ⟨Race.Phase.start, ["http://10.0.1.1:8888".data], none⟩
      = (dset "example.com".data ["http://10.0.0.1:8888".data] [],
          ⟨Race.Phase.done, ["http://10.0.0.1:8888".data],
            some ["http://10.0.0.1:8888".data]⟩,
          ⟨Race.Phase.done, ["http://10.0.1.1:8888".data],
            some ["http://10.0.0.1:8888".data]⟩) :=
  race_sequential "example.com".data ["http://10.0.0.1:8888".data]
    ["http://10.0.1.1:8888".data] [] rfl

/-- Projection of the routing result onto one payload field of the dispatched
request object, none when the routing raised. -/
def fieldOf (res : ControllerState × Except PyError Dispatch) (k : Str) :
    Option (Option Str) :=
  match res.2 with
  | Except.ok dsp => some (dsp.fields k)
  | Except.error _ => none

/-- Claim C8: every caller supplied payload field whose key is neither
session nor proxy reaches the dispatched request object unchanged whenever a
request is dispatched (the url of the request object is a separate attribute,
so even a url payload field is passed through). -/
theorem payload_passthrough (st : ControllerState) (req : Request)
    (r : Nat → Nat) (c : Nat) (k : Str)
    (h1 : k ≠ "session".data) (h2 : k ≠ "proxy".data) :
    fieldOf (controller_v1 st req r c) k = none ∨
      fieldOf (controller_v1 st req r c) k = some (req.payload k) := by
  cases hp : req.parsed with
  | none =>
    refine Or.inl ?_
    simp only [controller_v1, hp]
    rfl
  | some domain =>
    simp only [controller_v1, hp]
    cases (dget domain (assignProxies st domain r)).getD [] with
    | nil => exact Or.inl rfl
    | cons a rest =>
      refine Or.inr ?_
      simp only [fieldOf]
      rw [pupdate_ne _ _ _ _ h2, pupdate_ne _ _ _ _ h1, pupdate_ne _ _ _ _ h1]

/-- Witness for the payload passthrough theorem at a concrete request
carrying an extra field foo. -/
theorem payload_passthrough_witness :
    fieldOf
        (controller_v1 ⟨["http://10.0.0.1:8888".data], []⟩
          ⟨"http://example.com/".data, some "example.com".data,
            fun k => if k = "foo".data then some "bar".data else none⟩
          (fun _ => 0) 0) "foo".data
      = some ((fun k : Str =>
          if k = "foo".data then some "bar".data else none) "foo".data) :=
  Or.resolve_left
    (payload_passthrough ⟨["http://10.0.0.1:8888".data], []⟩
      ⟨"http://example.com/".data, some "example.com".data,
        fun k => if k = "foo".data then some "bar".data else none⟩
      (fun _ => 0) 0 "foo".data (by decide) (by decide))
    (by decide)

/-- Claim C10: a first request for an unseen domain inserts the assignment
into the cache before proxy selection and session derivation, so the entry is
present in the post state whatever the outcome of the request (including the
error paths), and every subsequent request still finds exactly that entry:
the cache is never rolled back. -/
theorem first_insert_persists (st : ControllerState) (req : Request)
    (r : Nat → Nat) (c : Nat) (d : Str)
    (hp : req.parsed = some d)
    (hnew : dget d st.DOMAIN_PROXIES = none) :
    dget d (controller_v1 st req r c).1.DOMAIN_PROXIES
        = some (if 10 ≤ st.PROXY_POOL.length
                then randomSample r 10 st.PROXY_POOL 0 else st.PROXY_POOL) ∧
      ∀ (req2 : Request) (r2 : Nat → Nat) (c2 : Nat),
        dget d (controller_v1 (controller_v1 st req r c).1
            req2 r2 c2).1.DOMAIN_PROXIES
          = some (if 10 ≤ st.PROXY_POOL.length
                  then randomSample r 10 st.PROXY_POOL 0
                  else st.PROXY_POOL) := by
  have h1 : dget d (controller_v1 st req r c).1.DOMAIN_PROXIES
      = some (if 10 ≤ st.PROXY_POOL.length
              then randomSample r 10 st.PROXY_POOL 0 else st.PROXY_POOL) := by
    rw [controller_v1_state_some st req r c d hp]
    show dget d (assignProxies st d r) = _
    rw [assignProxies_of_new st d r hnew]
    by_cases hlen : 10 ≤ st.PROXY_POOL.length
    · rw [if_pos hlen, if_pos hlen, dget_dset_self]
    · rw [if_neg hlen, if_neg hlen, dget_dset_self]
  exact ⟨h1, fun req2 r2 c2 =>
    controller_preserves (controller_v1 st req r c).1 req2 r2 c2 d _ h1⟩

/-- Witness for the insertion persistence theorem: a first request for an
unseen domain on a one element pool (this request in fact dispatches, and the
entry persists through a second request). -/
theorem first_insert_persists_witness :
    dget "example.com".data
        (controller_v1 ⟨["http://10.0.0.1:8888".data], []⟩
          ⟨"http://example.com/".data, some "example.com".data, fun _ => none⟩
          (fun _ => 0) 0).1.DOMAIN_PROXIES
        = some (if 10 ≤ (["http://10.0.0.1:8888".data] : List Str).length
                then randomSample (fun _ => 0) 10
                  ["http://10.0.0.1:8888".data] 0
                else ["http://10.0.0.1:8888".data]) ∧
      ∀ (req2 : Request) (r2 : Nat → Nat) (c2 : Nat),
        dget "example.com".data
            (controller_v1
              (controller_v1 ⟨["http://10.0.0.1:8888".data], []⟩
                ⟨"http://example.com/".data, some "example.com".data,
                  fun _ => none⟩
                (fun _ => 0) 0).1 req2 r2 c2).1.DOMAIN_PROXIES
          = some (if 10 ≤ (["http://10.0.0.1:8888".data] : List Str).length
                  then randomSample (fun _ => 0) 10
                    ["http://10.0.0.1:8888".data] 0
                  else ["http://10.0.0.1:8888".data]) :=
  first_insert_persists ⟨["http://10.0.0.1:8888".data], []⟩
    ⟨"http://example.com/".data, some "example.com".data, fun _ => none⟩
    (fun _ => 0) 0 "example.com".data rfl rfl

end FlareSolverr
